import Mathlib

/-!
Shallow embedding of the OpenGL pipeline/program cache from
`src/util/opengl_pipeline.cpp` (duckstation). The embedding models the
program-cache data structures, the disk pipeline-cache protocol
(read/add/discard/close) and the shader-object creation path. External
effects (OpenGL driver calls, file I/O, zstd) are modelled by explicit
oracle parameters recording their outcomes; every state change performed
by the C++ code on each outcome is reproduced.
-/

namespace OGLPipeline

/-- `GPUShaderCache::CacheIndexKey` restricted to the fields read by
`OpenGLPipeline::GetProgramCacheKey` (64-bit source hash split in two
32-bit halves plus the source length). -/
structure CacheIndexKey where
  source_hash_low : Nat
  source_hash_high : Nat
  source_length : Nat
  deriving DecidableEq, Repr

/-- `GPUDevice::MAX_VERTEX_ATTRIBUTES`: the fixed capacity of the
vertex-attribute array inside `VertexArrayCacheKey`.  The value is pinned
by the `static_assert(sizeof(PipelineDiskCacheIndexEntry) == 112)` in the
source: 112 = 96 (key) + 16, and 96 = 9*4 (shader hash/length fields)
+ 4*MAX (attributes, one packed u32 each) + 4 (stride) + 4 (count). -/
def MAX_VERTEX_ATTRIBUTES : Nat := 13

/-- `OpenGLPipeline::VertexArrayCacheKey`: fixed-capacity attribute array
(each attribute is its packed 32-bit `va.key` value), stride and count.
The list always has length `MAX_VERTEX_ATTRIBUTES`; unused slots are 0. -/
structure VertexArrayCacheKey where
  vertex_attributes : List Nat
  vertex_attribute_stride : Nat
  num_vertex_attributes : Nat
  deriving DecidableEq, Repr

/-- `OpenGLPipeline::ProgramCacheKey`: per-stage 64-bit hash halves and
source lengths (geometry fields all zero when absent) plus the embedded
vertex-array key.  Equality in the C++ is `memcmp` over the whole
struct; the model's structural equality coincides with it because unused
attribute slots arezero-filled by `GetProgramCacheKey`. -/
structure ProgramCacheKey where
  va_key : VertexArrayCacheKey
  vs_hash_low : Nat
  vs_hash_high : Nat
  vs_length : Nat
  fs_hash_low : Nat
  fs_hash_high : Nat
  fs_length : Nat
  gs_hash_low : Nat
  gs_hash_high : Nat
  gs_length : Nat
  deriving DecidableEq, Repr

/-- `OpenGLPipeline::ProgramCacheItem`: live GL program handle (0 when
not instantiated), reference count, and the disk-location descriptor. -/
structure ProgramCacheItem where
  program_id : Nat
  reference_count : Nat
  file_format : Nat
  file_offset : Nat
  file_uncompressed_size : Nat
  file_compressed_size : Nat
  deriving DecidableEq, Repr

/-- Association-list model of `m_program_cache`
(`std::unordered_map<ProgramCacheKey, ProgramCacheItem>`). -/
abbrev Cache : Type := List (ProgramCacheKey × ProgramCacheItem)

/-- `m_program_cache.find(key)`. -/
def findEntry : Cache → ProgramCacheKey → Option ProgramCacheItem
  | [], _ => none
  | p :: rest, k => if p.1 = k then some p.2 else findEntry rest k

/-- `m_program_cache.erase(it)` at the entry for `k`. -/
def eraseEntry (m : Cache) (k : ProgramCacheKey) : Cache :=
  m.filter (fun p => ¬(p.1 = k))

/-- `m_program_cache.emplace(key, item)` (key known absent at call sites). -/
def insertEntry (m : Cache) (k : ProgramCacheKey) (v : ProgramCacheItem) : Cache :=
  (k, v) :: m

/-- In-place mutation `it->second := v` of the entry for `k`. -/
def updateEntry (m : Cache) (k : ProgramCacheKey) (v : ProgramCacheItem) : Cache :=
  m.map (fun p => if p.1 = k then (k, v) else p)

/-- `PipelineDiskCacheFooter` (driver-identity strings already truncated
to 127 bytes by `Strlcpy`; string equality models the `strncmp`s). -/
structure Footer where
  version : Nat
  num_programs : Nat
  driver_vendor : String
  driver_renderer : String
  driver_version : String
  deriving DecidableEq, Repr

/-- `PipelineDiskCacheIndexEntry`. -/
structure IndexEntry where
  key : ProgramCacheKey
  format : Nat
  offset : Nat
  uncompressed_size : Nat
  compressed_size : Nat
  deriving DecidableEq, Repr

/-- `sizeof(PipelineDiskCacheFooter)` = 2*4 + 3*128. -/
def FOOTER_SIZE : Nat := 392

/-- `sizeof(PipelineDiskCacheIndexEntry)` (static_assert in the source). -/
def INDEX_ENTRY_SIZE : Nat := 112

/-- The mutable device state touched by the program/pipeline cache code:
the program cache map, the `m_last_program` binding, and the disk-cache
store members.  `disk_cache_file` is `m_pipeline_disk_cache_file != nullptr`,
`disk_file_size` tracks the size of the backing file (0 right after a
`"w+b"` truncating reopen). -/
structure GLDeviceState where
  program_cache : Cache
  last_program : Nat
  disk_cache_file : Bool
  disk_cache_filename_valid : Bool
  disk_cache_data_end : Nat
  disk_cache_changed : Bool
  disk_file_size : Nat
  deriving DecidableEq, Repr

/-- Clearing of the four disk-location fields done by
`DiscardPipelineCache` on entries with a live handle. -/
def clearFileFields (it : ProgramCacheItem) : ProgramCacheItem :=
  { it with file_format := 0, file_offset := 0,
            file_uncompressed_size := 0, file_compressed_size := 0 }

/-- The map pass of `OpenGLDevice::DiscardPipelineCache`: entries with a
live handle keep their handle but lose the disk-location metadata;
entries without a live handle are erased. -/
def discardEntries (m : Cache) : Cache :=
  (m.filter (fun p => ¬(p.2.program_id = 0))).map (fun p => (p.1, clearFileFields p.2))

/-- `OpenGLDevice::DiscardPipelineCache`: scrub the map, close the file
if open, reset `data_end`, reopen the file truncated (`"w+b"`).
`reopenOk` is the outcome of `FileSystem::OpenCFile`; on failure the
filename is cleared and `false` is returned. -/
def discardPipelineCache (s : GLDeviceState) (reopenOk : Bool) :
    GLDeviceState × Bool :=
  let cache := discardEntries s.program_cache
  if reopenOk then
    ({ s with program_cache := cache, disk_cache_data_end := 0,
              disk_cache_file := true, disk_file_size := 0 }, true)
  else
    ({ s with program_cache := cache, disk_cache_data_end := 0,
              disk_cache_file := false, disk_cache_filename_valid := false,
              disk_file_size := 0 }, false)

/-- Outcomes of the driver/zstd/file calls made by
`OpenGLDevice::AddToPipelineCache`.  `binaryLength` is the
`GL_PROGRAM_BINARY_LENGTH` query, `retrievedLength` the `binary_size`
written back by `glGetProgramBinary`, `compressResult` the zstd result
(`none` = `ZSTD_isError`), `seekWriteOk` whether the seek+`fwrite` of the
compressed blob succeeded. -/
structure AddOracle where
  binaryLength : Nat
  retrievedLength : Nat
  format : Nat
  compressResult : Option Nat
  seekWriteOk : Bool
  deriving DecidableEq, Repr

/-- A blob write that actually reached the file: (offset, length). -/
structure BlobWrite where
  offset : Nat
  length : Nat
  deriving DecidableEq, Repr

/-- `OpenGLDevice::AddToPipelineCache(it)`.  Returns the mutated item,
the mutated device state, and the blob write that landed on disk
(`none` when the function bailed out or the write failed).  Note that
after a failed seek/write the code only logs: the item is still marked
disk-backed, `data_end` still advances (u32 arithmetic) and the store is
still marked dirty. -/
def addToPipelineCache (s : GLDeviceState) (it : ProgramCacheItem)
    (o : AddOracle) : ProgramCacheItem × GLDeviceState × Option BlobWrite :=
  if o.binaryLength = 0 then (it, s, none)
  else if o.retrievedLength = 0 then (it, s, none)
  else
    match o.compressResult with
    | none => (it, s, none)
    | some csize =>
      let write : Option BlobWrite :=
        if o.seekWriteOk then some ⟨s.disk_cache_data_end, csize⟩ else none
      let it2 : ProgramCacheItem :=
        { it with file_format := o.format,
                  file_offset := s.disk_cache_data_end,
                  file_uncompressed_size := o.retrievedLength % 2 ^ 32,
                  file_compressed_size := csize % 2 ^ 32 }
      (it2,
       { s with disk_cache_data_end := (s.disk_cache_data_end + csize) % 2 ^ 32,
                disk_cache_changed := true },
       write)

/-- Outcomes of the calls made by
`OpenGLDevice::CreateProgramFromPipelineCache`: file seek+read of the
compressed blob, `ZSTD_decompress` error status, and the program object
(`createdId`, 0 = `glCreateProgram` error) with its `GL_LINK_STATUS`
after `glProgramBinary`. -/
structure ReconstructOracle where
  seekReadOk : Bool
  decompressOk : Bool
  createdId : Nat
  linkStatusTrue : Bool
  deriving DecidableEq, Repr

/-- Observable effects of `CreateProgramFromPipelineCache`:
`readRequest` = (file_offset, byte count) handed to `FSeek64`/`fread`,
`decompressRequest` = (source size, destination capacity) handed to
`ZSTD_decompress`, `submitted` = (binary format, binary length) handed to
`glProgramBinary`, and the returned program id (0 = failure). -/
structure ReconstructEffects where
  readRequest : Option (Nat × Nat)
  decompressRequest : Option (Nat × Nat)
  submitted : Option (Nat × Nat)
  result : Nat
  deriving DecidableEq, Repr

/-- `OpenGLDevice::CreateProgramFromPipelineCache(it, plconfig)`.
The `fread(buf, it.file_compressed_size, 1, f)` call returns 1 only when
the seek+read succeed and the element size is nonzero (`fread` returns 0
when `size` is 0), hence the extra `file_compressed_size ≠ 0` conjunct. -/
def createProgramFromPipelineCache (it : ProgramCacheItem)
    (o : ReconstructOracle) : ReconstructEffects :=
  let req : Nat × Nat := (it.file_offset, it.file_compressed_size)
  if ¬(o.seekReadOk ∧ it.file_compressed_size ≠ 0) then
    ⟨some req, none, none, 0⟩
  else if ¬o.decompressOk then
    ⟨some req, some (it.file_compressed_size, it.file_uncompressed_size), none, 0⟩
  else if o.createdId = 0 then
    ⟨some req, some (it.file_compressed_size, it.file_uncompressed_size), none, 0⟩
  else if ¬o.linkStatusTrue then
    ⟨some req, some (it.file_compressed_size, it.file_uncompressed_size),
     some (it.file_format, it.file_uncompressed_size), 0⟩
  else
    ⟨some req, some (it.file_compressed_size, it.file_uncompressed_size),
     some (it.file_format, it.file_uncompressed_size), o.createdId⟩

/-- All outcomes a `LookupProgramCache` call can depend on:
the disk-reconstruction attempt, the `DiscardPipelineCache` reopen, the
fresh `CompileProgram` (0 = failure), and the `AddToPipelineCache`
oracle used on the fresh-compile path. -/
structure ResolveOracle where
  reconstruct : ReconstructOracle
  discardReopenOk : Bool
  compileResult : Nat
  add : AddOracle
  deriving DecidableEq, Repr

/-- Tail of `OpenGLDevice::LookupProgramCache` (from `CompileProgram`
down): fresh compile+link; on failure return 0 without touching the map;
on success build an item with reference count 1, run
`AddToPipelineCache` when the disk store is open, and emplace it. -/
def freshCompile (s : GLDeviceState) (key : ProgramCacheKey)
    (o : ResolveOracle) : Nat × GLDeviceState :=
  if o.compileResult = 0 then (0, s)
  else
    let item0 : ProgramCacheItem :=
      { program_id := o.compileResult, reference_count := 1,
        file_format := 0, file_offset := 0,
        file_uncompressed_size := 0, file_compressed_size := 0 }
    let added :=
      if s.disk_cache_file then addToPipelineCache s item0 o.add
      else (item0, s, none)
    (o.compileResult,
     { added.2.1 with
         program_cache := insertEntry added.2.1.program_cache key added.1 })

/-- `OpenGLDevice::LookupProgramCache(key, plconfig)`.  Mirrors the three
blocks of the C++: (1) disk-backed reconstruction when the entry exists
with handle 0 and nonzero uncompressed size — on failure the entry is
erased and `DiscardPipelineCache` runs; (2) the `it != end` block, which
increments the reference count only when the handle is nonzero and
returns the handle; (3) fall-through to `CompileProgram`. -/
def lookupProgramCache (s : GLDeviceState) (key : ProgramCacheKey)
    (o : ResolveOracle) : Nat × GLDeviceState :=
  match findEntry s.program_cache key with
  | some it =>
    if it.program_id = 0 ∧ 0 < it.file_uncompressed_size then
      let recon := createProgramFromPipelineCache it o.reconstruct
      if recon.result = 0 then
        let s1 := { s with program_cache := eraseEntry s.program_cache key }
        let s2 := (discardPipelineCache s1 o.discardReopenOk).1
        freshCompile s2 key o
      else
        let it2 := { it with program_id := recon.result,
                             reference_count := it.reference_count + 1 }
        (recon.result,
         { s with program_cache := updateEntry s.program_cache key it2 })
    else if it.program_id ≠ 0 then
      let it2 := { it with reference_count := it.reference_count + 1 }
      (it.program_id,
       { s with program_cache := updateEntry s.program_cache key it2 })
    else
      (0, s)
  | none => freshCompile s key o

/-- `OpenGLDevice::UnrefProgram(key)`.  The call site guarantees the
`Assert`: the entry exists, has a nonzero handle and a positive
reference count; when the entry is absent the model leaves the state
unchanged (the C++ `Assert` aborts).  At reference count zero the
current-program binding is cleared if it points at this program, the GL
program is deleted, the handle is zeroed, and the entry is erased iff
`file_uncompressed_size == 0`. -/
def unrefProgram (s : GLDeviceState) (key : ProgramCacheKey) : GLDeviceState :=
  match findEntry s.program_cache key with
  | none => s
  | some it =>
    if it.reference_count - 1 > 0 then
      let it2 := { it with reference_count := it.reference_count - 1 }
      { s with program_cache := updateEntry s.program_cache key it2 }
    else
      let last := if s.last_program = it.program_id then 0 else s.last_program
      if it.file_uncompressed_size = 0 then
        { s with last_program := last,
                 program_cache := eraseEntry s.program_cache key }
      else
        let it2 := { it with program_id := 0, reference_count := 0 }
        { s with last_program := last,
                 program_cache := updateEntry s.program_cache key it2 }

/-- Contents/outcomes of the cache file handed to `ReadPipelineCache`
after a successful `fopen("r+b")`: the `FSize64` result, the footer read
(`none` = seek/`fread` failure), the per-iteration index-entry `fread`
results, and whether the seek to the start of the index succeeded. -/
structure CacheFile where
  size : Nat
  footerRead : Option Footer
  entryReads : List (Option IndexEntry)
  indexSeekOk : Bool
  deriving DecidableEq, Repr

/-- How the initial `fopen("r+b")` in `ReadPipelineCache` went. -/
inductive OpenResult where
  | opened (f : CacheFile)
  | eacces
  | enoent
  | otherError
  deriving DecidableEq, Repr

/-- The first `num_programs` `fread` results of the index-entry loop
(absent positions read nothing: `none`). -/
def entryReadsFor (f : CacheFile) (n : Nat) : List (Option IndexEntry) :=
  f.entryReads.take n ++ List.replicate (n - f.entryReads.length) none

/-- The index-entry loop of `ReadPipelineCache`.  Each iteration fails
(returning `none`, which the caller turns into `DiscardPipelineCache`)
when the `fread` fails, when `offset + compressed_size >= size` (s64
comparison), or when the key is already in the map; otherwise it
emplaces a `ProgramCacheItem` with handle 0 and reference count 0. -/
def readEntriesLoop (size : Nat) (cache : Cache) :
    List (Option IndexEntry) → Option Cache
  | [] => some cache
  | none :: _ => none
  | some e :: rest =>
    if size ≤ e.offset + e.compressed_size then none
    else if (findEntry cache e.key).isSome then none
    else
      let pitem : ProgramCacheItem :=
        { program_id := 0, reference_count := 0, file_format := e.format,
          file_offset := e.offset, file_uncompressed_size := e.uncompressed_size,
          file_compressed_size := e.compressed_size }
      readEntriesLoop size (insertEntry cache e.key pitem) rest

/-- `m_pipeline_disk_cache_data_end` as computed at load time:
`static_cast<u32>(size) - sizeof(Footer) - sizeof(IndexEntry)*num_programs`,
evaluated in 64-bit unsigned arithmetic and truncated to u32 on
assignment (it underflows when the footer lies about `num_programs`;
the subsequent `< 0` test on the unsigned member is always false). -/
def dataEndAtLoad (size n : Nat) : Nat :=
  ((size % 2 ^ 32) + 2 ^ 64 - (FOOTER_SIZE + INDEX_ENTRY_SIZE * n) % 2 ^ 64) % 2 ^ 64 % 2 ^ 32

/-- `OpenGLDevice::ReadPipelineCache(filename)`.  `expected` is the
footer built by `FillFooter` from the current driver identity and
shader-cache version; `reopenOk` feeds every internal
`DiscardPipelineCache`.  Returns the new state and the bool result. -/
def readPipelineCache (s : GLDeviceState) (r : OpenResult) (expected : Footer)
    (reopenOk : Bool) : GLDeviceState × Bool :=
  match r with
  | .eacces =>
    ({ s with disk_cache_file := false, disk_cache_filename_valid := false }, true)
  | .otherError =>
    ({ s with disk_cache_file := false, disk_cache_filename_valid := false }, false)
  | .enoent => discardPipelineCache { s with disk_cache_file := false } reopenOk
  | .opened f =>
    let s := { s with disk_cache_file := true, disk_file_size := f.size }
    if f.size < FOOTER_SIZE ∨ 4294967295 ≤ f.size then
      discardPipelineCache s reopenOk
    else
      match f.footerRead with
      | none => discardPipelineCache s reopenOk
      | some ft =>
        if ft.version ≠ expected.version ∨
           ft.driver_vendor ≠ expected.driver_vendor ∨
           ft.driver_renderer ≠ expected.driver_renderer ∨
           ft.driver_version ≠ expected.driver_version then
          discardPipelineCache s reopenOk
        else
          let s := { s with disk_cache_data_end := dataEndAtLoad f.size ft.num_programs }
          if ¬f.indexSeekOk then discardPipelineCache s reopenOk
          else
            match readEntriesLoop f.size s.program_cache
                    (entryReadsFor f ft.num_programs) with
            | none => discardPipelineCache s reopenOk
            | some cache => ({ s with program_cache := cache }, true)

/-- One record written by `ClosePipelineCache`. -/
inductive CloseWrite where
  | indexEntry (key : ProgramCacheKey) (format offset uncompressed_size compressed_size : Nat)
  | footer (version num_programs : Nat)
  deriving DecidableEq, Repr

/-- The index entries `ClosePipelineCache` emits: one per map entry with
nonzero `file_uncompressed_size`, live or not. -/
def closeIndexWrites (m : Cache) : List CloseWrite :=
  (m.filter (fun p => ¬(p.2.file_uncompressed_size = 0))).map
    (fun p => CloseWrite.indexEntry p.1 p.2.file_format p.2.file_offset
                p.2.file_uncompressed_size p.2.file_compressed_size)

/-- `OpenGLDevice::ClosePipelineCache()`.  The `ScopedGuard` closes the
file handle on every exit path, so the resulting state always has
`disk_cache_file = false`.  Nothing is written when the store is not
dirty; otherwise the seek to `data_end` (which fails when there is no
open file) is followed by one index entry per disk-backed item and a
footer whose `num_programs` is the number of entries written.  `seekOk`
and `writeOk` are the I/O outcomes; a failed index-entry write aborts
the pass early (modelled as the first write failing: no records land). -/
def closePipelineCache (s : GLDeviceState) (version : Nat)
    (seekOk writeOk : Bool) : GLDeviceState × List CloseWrite :=
  let sClosed := { s with disk_cache_file := false }
  if ¬s.disk_cache_changed then (sClosed, [])
  else if ¬(s.disk_cache_file ∧ seekOk) then (sClosed, [])
  else if ¬writeOk then (sClosed, [])
  else
    let ws := closeIndexWrites s.program_cache
    (sClosed, ws ++ [CloseWrite.footer version ws.length])

/-- The inputs `OpenGLPipeline::GetProgramCacheKey` reads from the
`GraphicsConfig`: the three shader cache keys (geometry optional, a null
pointer in the C++) and the input layout (attribute `key` words, in
order, plus the vertex stride). -/
structure KeyInput where
  vertex_shader_key : CacheIndexKey
  fragment_shader_key : CacheIndexKey
  geometry_shader_key : Option CacheIndexKey
  vertex_attributes : List Nat
  vertex_stride : Nat
  deriving DecidableEq, Repr

/-- `OpenGLPipeline::GetProgramCacheKey(plconfig)`.  Asserted
precondition: at most `MAX_VERTEX_ATTRIBUTES` attributes.  The
attribute array is `memset` to zero and then the populated prefix is
copied in; the stride field is zeroed and only set when there is at
least one attribute; an absent geometry shader contributes all-zero
hash/length fields. -/
def getProgramCacheKey (c : KeyInput) : ProgramCacheKey :=
  let n := c.vertex_attributes.length
  { va_key :=
      { vertex_attributes :=
          c.vertex_attributes.take MAX_VERTEX_ATTRIBUTES ++
            List.replicate (MAX_VERTEX_ATTRIBUTES - n) 0,
        vertex_attribute_stride := if 0 < n then c.vertex_stride else 0,
        num_vertex_attributes := n },
    vs_hash_low := c.vertex_shader_key.source_hash_low,
    vs_hash_high := c.vertex_shader_key.source_hash_high,
    vs_length := c.vertex_shader_key.source_length,
    fs_hash_low := c.fragment_shader_key.source_hash_low,
    fs_hash_high := c.fragment_shader_key.source_hash_high,
    fs_length := c.fragment_shader_key.source_length,
    gs_hash_low := (c.geometry_shader_key.map (·.source_hash_low)).getD 0,
    gs_hash_high := (c.geometry_shader_key.map (·.source_hash_high)).getD 0,
    gs_length := (c.geometry_shader_key.map (·.source_length)).getD 0 }

/-- Swap the vertex and fragment shader keys of a `KeyInput`. -/
def swapVsFs (c : KeyInput) : KeyInput :=
  { c with vertex_shader_key := c.fragment_shader_key,
           fragment_shader_key := c.vertex_shader_key }

/-- The state of an `OpenGLShader` object relevant to creation and
compilation: `compile_tried` is `m_compile_tried`, `id` is `m_id`
(`none` until a successful `Compile`). -/
structure ShaderState where
  stage : Nat
  source : String
  compile_tried : Bool
  id : Option Nat
  deriving DecidableEq, Repr

/-- `OpenGLDevice::CreateShaderFromSource(stage, source, entry_point)`:
any entry point other than `"main"` is rejected with a null pointer;
otherwise a fresh `OpenGLShader` is constructed, which performs no
compilation (its constructor only stores the stage, key and source). -/
def createShaderFromSource (stage : Nat) (source : String)
    (entry_point : String) : Option ShaderState :=
  if entry_point ≠ "main" then none
  else some { stage := stage, source := source, compile_tried := false, id := none }

/-- `OpenGLShader::Compile()`: memoized; on the first call, `outcome`
gives the id produced by create+compile (`none` = failure). -/
def shaderCompile (sh : ShaderState) (outcome : Option Nat) :
    ShaderState × Bool :=
  if sh.compile_tried then (sh, sh.id.isSome)
  else
    match outcome with
    | none => ({ sh with compile_tried := true }, false)
    | some i => ({ sh with compile_tried := true, id := some i }, true)

/-- One externally triggered operation on the device's program-cache
state, with the oracle outcomes of its external calls baked in. -/
inductive Op where
  | resolve (key : ProgramCacheKey) (o : ResolveOracle)
  | release (key : ProgramCacheKey)
  | openCache (r : OpenResult) (expected : Footer) (reopenOk : Bool)
  | invalidate (reopenOk : Bool)
  | close (version : Nat) (seekOk writeOk : Bool)
  deriving Repr

/-- Effect of one operation on the device state.  `release` only fires
under `UnrefProgram`'s asserted precondition (entry present, live
handle, positive reference count); outside it the C++ aborts, modelled
as a stutter. -/
def step (s : GLDeviceState) : Op → GLDeviceState
  | .resolve key o => (lookupProgramCache s key o).2
  | .release key =>
    match findEntry s.program_cache key with
    | some it =>
      if it.program_id ≠ 0 ∧ 0 < it.reference_count then unrefProgram s key else s
    | none => s
  | .openCache r expected reopenOk => (readPipelineCache s r expected reopenOk).1
  | .invalidate reopenOk => (discardPipelineCache s reopenOk).1
  | .close version seekOk writeOk => (closePipelineCache s version seekOk writeOk).1

/-- State of a freshly constructed `OpenGLDevice`: empty program cache,
no bound program, no disk-cache file yet. -/
def initState : GLDeviceState :=
  { program_cache := [], last_program := 0, disk_cache_file := false,
    disk_cache_filename_valid := true, disk_cache_data_end := 0,
    disk_cache_changed := false, disk_file_size := 0 }

/-- Run a sequence of operations from a state. -/
def run (s : GLDeviceState) (ops : List Op) : GLDeviceState :=
  ops.foldl step s

/-! Concrete instances used by witnesses and counterexamples. -/

/-- The all-zero program cache key (a convenient concrete key). -/
def key0 : ProgramCacheKey :=
  { va_key := { vertex_attributes := List.replicate 13 0,
                vertex_attribute_stride := 0, num_vertex_attributes := 0 },
    vs_hash_low := 0, vs_hash_high := 0, vs_length := 0,
    fs_hash_low := 0, fs_hash_high := 0, fs_length := 0,
    gs_hash_low := 0, gs_hash_high := 0, gs_length := 0 }

/-- A disk-backed, not-loaded cache item (handle 0, reference count 0,
blob of 4 compressed / 5 uncompressed bytes at offset 10, format 3). -/
def itemDisk : ProgramCacheItem :=
  { program_id := 0, reference_count := 0, file_format := 3,
    file_offset := 10, file_uncompressed_size := 5, file_compressed_size := 4 }

/-- A device state holding only the disk-backed item under `key0`, with
the disk store open. -/
def sDisk : GLDeviceState :=
  { program_cache := [(key0, itemDisk)], last_program := 0,
    disk_cache_file := true, disk_cache_filename_valid := true,
    disk_cache_data_end := 14, disk_cache_changed := false,
    disk_file_size := 520 }

/-- A resolve oracle where every external call succeeds:
disk reconstruction yields program 9, a fresh compile yields program 7,
and the add path bails out on a zero binary length. -/
def oracleOk : ResolveOracle :=
  { reconstruct := { seekReadOk := true, decompressOk := true,
                     createdId := 9, linkStatusTrue := true },
    discardReopenOk := true, compileResult := 7,
    add := { binaryLength := 0, retrievedLength := 0, format := 0,
             compressResult := none, seekWriteOk := true } }

/-- A concrete key-derivation input: distinct vertex/fragment shader
keys, no geometry shader, a single vertex attribute. -/
def keyInputEx : KeyInput :=
  { vertex_shader_key := ⟨1, 2, 3⟩, fragment_shader_key := ⟨4, 5, 6⟩,
    geometry_shader_key := none, vertex_attributes := [5], vertex_stride := 20 }

/-- A live, disk-backed cache item: handle 9, one reference, blob of
4 compressed / 5 uncompressed bytes at offset 10, format 3. -/
def itemLive : ProgramCacheItem :=
  { program_id := 9, reference_count := 1, file_format := 3,
    file_offset := 10, file_uncompressed_size := 5, file_compressed_size := 4 }

/-- A device state with `itemLive` under `key0` and program 9 bound. -/
def sLive : GLDeviceState :=
  { program_cache := [(key0, itemLive)], last_program := 9,
    disk_cache_file := true, disk_cache_filename_valid := true,
    disk_cache_data_end := 14, disk_cache_changed := true,
    disk_file_size := 520 }

/-- `oracleOk` with a failing blob read on the reconstruction path. -/
def oracleReadFail : ResolveOracle :=
  { oracleOk with reconstruct := { seekReadOk := false, decompressOk := true,
                                   createdId := 9, linkStatusTrue := true } }

/-- The state produced by `LookupProgramCache` when disk-backed
reconstruction fails, before falling through to `CompileProgram`: the
entry is erased and `DiscardPipelineCache` runs. -/
def diskFailState (s : GLDeviceState) (key : ProgramCacheKey)
    (reopenOk : Bool) : GLDeviceState :=
  (discardPipelineCache
    { s with program_cache := eraseEntry s.program_cache key } reopenOk).1

/-- The §3 `ProgramCacheItem` invariant on one entry: a live handle
implies a positive reference count, and an entry that is neither live
nor disk-backed must not exist. -/
def ItemInv (it : ProgramCacheItem) : Prop :=
  (it.program_id ≠ 0 → 1 ≤ it.reference_count) ∧
  ¬(it.program_id = 0 ∧ it.file_uncompressed_size = 0 ∧ it.file_compressed_size = 0)

instance (it : ProgramCacheItem) : Decidable (ItemInv it) := by
  unfold ItemInv; infer_instance

/-- The map-wide invariant on a cache list. -/
def InvCache (m : Cache) : Prop :=
  ∀ p ∈ m, ItemInv p.2

instance (m : Cache) : Decidable (InvCache m) := by
  unfold InvCache; infer_instance

/-- The map-wide invariant of claim C2 on a device state. -/
def CacheInv (s : GLDeviceState) : Prop :=
  InvCache s.program_cache

instance (s : GLDeviceState) : Decidable (CacheInv s) := by
  unfold CacheInv; infer_instance

/-- An index entry with a nonzero size field (what every entry written
by `ClosePipelineCache`/`AddToPipelineCache` satisfies). -/
def GoodEntry (e : IndexEntry) : Prop :=
  e.uncompressed_size ≠ 0 ∨ e.compressed_size ≠ 0

/-- An operation is well-fed when any cache file it opens carries only
index entries with a nonzero size field. -/
def GoodOp : Op → Prop
  | .openCache (.opened f) _ _ => ∀ oe ∈ f.entryReads, ∀ e, oe = some e → GoodEntry e
  | _ => True

/-- A footer declaring one program under driver identity
`"v"/"r"/"ver"`, version 1. -/
def footerOne : Footer :=
  { version := 1, num_programs := 1, driver_vendor := "v",
    driver_renderer := "r", driver_version := "ver" }

/-- A 504-byte cache file whose single index entry has both size fields
zero (a crafted/corrupt file: entries the store itself writes always
have nonzero sizes). -/
def fileZeroEntry : CacheFile :=
  { size := 504, footerRead := some footerOne,
    entryReads := [some { key := key0, format := 0, offset := 0,
                          uncompressed_size := 0, compressed_size := 0 }],
    indexSeekOk := true }

/-- A footer declaring two programs under driver identity
`"v"/"r"/"ver"`, version 1. -/
def footerTwo : Footer :=
  { version := 1, num_programs := 2, driver_vendor := "v",
    driver_renderer := "r", driver_version := "ver" }

/-- A 616-byte cache file whose second index entry's blob range
(offset 600 + 200 compressed bytes) reaches past the file size. -/
def fileOversize : CacheFile :=
  { size := 616, footerRead := some footerTwo,
    entryReads := [some { key := key0, format := 1, offset := 0,
                          uncompressed_size := 8, compressed_size := 6 },
                   some { key := { key0 with vs_hash_low := 1 }, format := 1,
                          offset := 600, uncompressed_size := 8,
                          compressed_size := 200 }],
    indexSeekOk := true }

/-- The C5 claim as the spec states it, restricted to its invalidate
clause: if an invalidate occurred during the session then close (with
working I/O) performs the write pass — in particular it writes at least
the footer, so the write list is nonempty.  (Spec-worded proposition,
kept for refutation.) -/
def CloseWritesAfterInvalidateClaim : Prop :=
  ∀ (ops : List Op) (version : Nat),
    (∃ op ∈ ops, ∃ ro, op = Op.invalidate ro) →
    (closePipelineCache (run initState ops) version true true).2 ≠ []

/-! ## Helper lemmas about the association-list cache -/

theorem findEntry_insert_self (m : Cache) (k : ProgramCacheKey)
    (v : ProgramCacheItem) : findEntry (insertEntry m k v) k = some v := by
  simp [insertEntry, findEntry]

theorem findEntry_insert_isSome (m : Cache) (k k2 : ProgramCacheKey)
    (v : ProgramCacheItem) (h : (findEntry m k2).isSome) :
    (findEntry (insertEntry m k v) k2).isSome := by
  simp only [insertEntry, findEntry]
  split <;> simp [h]

theorem findEntry_erase_self (m : Cache) (k : ProgramCacheKey) :
    findEntry (eraseEntry m k) k = none := by
  induction m with
  | nil => rfl
  | cons p rest ih =>
    simp only [eraseEntry, List.filter] at *
    by_cases hpk : p.1 = k
    · simpa [hpk] using ih
    · simpa [findEntry, hpk] using ih

theorem findEntry_update_self (m : Cache) (k : ProgramCacheKey)
    (v : ProgramCacheItem) (h : (findEntry m k).isSome) :
    findEntry (updateEntry m k v) k = some v := by
  induction m with
  | nil => simp [findEntry] at h
  | cons p rest ih =>
    by_cases hpk : p.1 = k
    · simp [updateEntry, findEntry, hpk]
    · simp only [findEntry, hpk, if_false] at h
      simpa [updateEntry, findEntry, hpk] using ih h

theorem findEntry_discardEntries_none (m : Cache) (k : ProgramCacheKey)
    (h : findEntry m k = none) : findEntry (discardEntries m) k = none := by
  induction m with
  | nil => rfl
  | cons p rest ih =>
    by_cases hpk : p.1 = k
    · simp [findEntry, hpk] at h
    · simp only [findEntry, hpk, if_false] at h
      by_cases hid : p.2.program_id = 0
      · simpa [discardEntries, List.filter, hid] using ih h
      · have := ih h
        simp only [discardEntries, List.filter, hid] at this ⊢
        simpa [findEntry, hpk, discardEntries] using this

/-! ## Claim theorems -/

/-- C10: `CreateShaderFromSource` returns a null shader for every entry
point other than `"main"` without creating a shader object, and for
`"main"` it always returns a shader object that has not been compiled
(`compile_tried = false`, no GL id): compilation is deferred to the
first `Compile()` call. -/
theorem c10_create_shader_entry_point (stage : Nat) (source : String)
    (entry_point : String) :
    (entry_point ≠ "main" → createShaderFromSource stage source entry_point = none) ∧
    (entry_point = "main" →
      createShaderFromSource stage source entry_point =
        some { stage := stage, source := source, compile_tried := false, id := none }) := by
  constructor
  · intro h
    simp [createShaderFromSource, h]
  · intro h
    simp [createShaderFromSource, h]

/-- C10 witness: entry point `"frag"` is rejected; entry point `"main"`
yields an uncompiled shader object. -/
theorem c10_create_shader_entry_point_witness :
    ("frag" ≠ "main" ∧ createShaderFromSource 2 "void f()" "frag" = none) ∧
    ("main" = "main" ∧ createShaderFromSource 2 "void f()" "main" =
      some { stage := 2, source := "void f()", compile_tried := false, id := none }) :=
  ⟨⟨by decide, (c10_create_shader_entry_point 2 "void f()" "frag").1 (by decide)⟩,
   ⟨rfl, (c10_create_shader_entry_point 2 "void f()" "main").2 rfl⟩⟩

/-- C6: resolving a key with no existing cache entry when the fresh
compile+link fails returns 0 and leaves the whole device state (in
particular the program cache map) unchanged, so a later resolve of the
same key retries compilation. -/
theorem c6_failed_compile_pollutes_nothing (s : GLDeviceState)
    (key : ProgramCacheKey) (o : ResolveOracle)
    (habsent : findEntry s.program_cache key = none)
    (hfail : o.compileResult = 0) :
    lookupProgramCache s key o = (0, s) := by
  simp [lookupProgramCache, habsent, freshCompile, hfail]

/-- C6 witness: a failed compile on the empty initial cache returns 0
and leaves the state untouched. -/
theorem c6_failed_compile_pollutes_nothing_witness :
    findEntry initState.program_cache key0 = none ∧
    ({ oracleOk with compileResult := 0 } : ResolveOracle).compileResult = 0 ∧
    lookupProgramCache initState key0 { oracleOk with compileResult := 0 } =
      (0, initState) :=
  ⟨rfl, rfl,
   c6_failed_compile_pollutes_nothing initState key0
     { oracleOk with compileResult := 0 } rfl rfl⟩

/-- C7: on an item with its disk location set, disk-backed
reconstruction issues a read of exactly `file_compressed_size` bytes at
`file_offset`, decompresses them with destination capacity exactly
`file_uncompressed_size`, submits the blob to the driver with its format
and `file_uncompressed_size`, and returns a nonzero program iff the
read, the decompression, the program-object creation and the link check
all succeed; any step failing makes it return 0. -/
theorem c7_reconstruction_steps (it : ProgramCacheItem) (o : ReconstructOracle)
    (hu : 0 < it.file_uncompressed_size) (hc : 0 < it.file_compressed_size) :
    (createProgramFromPipelineCache it o).readRequest =
      some (it.file_offset, it.file_compressed_size) ∧
    (o.seekReadOk = true →
      (createProgramFromPipelineCache it o).decompressRequest =
        some (it.file_compressed_size, it.file_uncompressed_size)) ∧
    (o.seekReadOk = true → o.decompressOk = true → o.createdId ≠ 0 →
      (createProgramFromPipelineCache it o).submitted =
        some (it.file_format, it.file_uncompressed_size)) ∧
    ((createProgramFromPipelineCache it o).result ≠ 0 ↔
      (o.seekReadOk = true ∧ o.decompressOk = true ∧ o.createdId ≠ 0 ∧
       o.linkStatusTrue = true)) ∧
    ((createProgramFromPipelineCache it o).result ≠ 0 →
      (createProgramFromPipelineCache it o).result = o.createdId) := by
  have hcz : it.file_compressed_size ≠ 0 := by omega
  unfold createProgramFromPipelineCache
  rcases o with ⟨sr, de, ci, ls⟩
  cases sr <;> cases de <;> cases ls <;> by_cases hci : ci = 0 <;> simp_all

/-- C7 witness: with `itemDisk` (4 compressed bytes at offset 10,
5 uncompressed, format 3) and an all-success oracle, the read, the
decompression and the submission are as claimed and the result is the
created program 9. -/
theorem c7_reconstruction_steps_witness :
    0 < itemDisk.file_uncompressed_size ∧ 0 < itemDisk.file_compressed_size ∧
    (createProgramFromPipelineCache itemDisk oracleOk.reconstruct).readRequest =
      some (10, 4) ∧
    (createProgramFromPipelineCache itemDisk oracleOk.reconstruct).result = 9 := by
  refine ⟨by decide, by decide, ?_, ?_⟩
  · have h := (c7_reconstruction_steps itemDisk oracleOk.reconstruct
      (by decide) (by decide)).1
    simpa [itemDisk] using h
  · have h := (c7_reconstruction_steps itemDisk oracleOk.reconstruct
      (by decide) (by decide)).2.2.2.2
    have hne : (createProgramFromPipelineCache itemDisk oracleOk.reconstruct).result ≠ 0 := by
      decide
    simpa [oracleOk] using h hne

/-- C8: program-key derivation zero-fills the unused vertex-attribute
slots (the attribute array always has the full fixed width, with zeros
past the populated count), encodes an absent geometry shader as all-zero
hash/length fields, and is order-sensitive in the shader slots: whenever
the vertex-shader hash/length triple differs from the fragment-shader
one, swapping the two shader keys yields a different ProgramCacheKey. -/
theorem c8_key_derivation (c : KeyInput)
    (hmax : c.vertex_attributes.length ≤ MAX_VERTEX_ATTRIBUTES) :
    ((getProgramCacheKey c).va_key.vertex_attributes.length = MAX_VERTEX_ATTRIBUTES ∧
     (getProgramCacheKey c).va_key.vertex_attributes.drop c.vertex_attributes.length =
       List.replicate (MAX_VERTEX_ATTRIBUTES - c.vertex_attributes.length) 0) ∧
    (c.geometry_shader_key = none →
      (getProgramCacheKey c).gs_hash_low = 0 ∧
      (getProgramCacheKey c).gs_hash_high = 0 ∧
      (getProgramCacheKey c).gs_length = 0) ∧
    (c.vertex_shader_key ≠ c.fragment_shader_key →
      getProgramCacheKey (swapVsFs c) ≠ getProgramCacheKey c) := by
  have htake : c.vertex_attributes.take MAX_VERTEX_ATTRIBUTES = c.vertex_attributes :=
    List.take_of_length_le hmax
  refine ⟨⟨?_, ?_⟩, ?_, ?_⟩
  · simp [getProgramCacheKey, htake, List.length_replicate]
    omega
  · simp only [getProgramCacheKey, htake]
    exact List.drop_left c.vertex_attributes _
  · intro h
    simp [getProgramCacheKey, h]
  · intro hne heq
    apply hne
    have h1 := congrArg ProgramCacheKey.vs_hash_low heq
    have h2 := congrArg ProgramCacheKey.vs_hash_high heq
    have h3 := congrArg ProgramCacheKey.vs_length heq
    simp only [getProgramCacheKey, swapVsFs] at h1 h2 h3
    cases hv : c.vertex_shader_key with
    | mk a b d =>
      cases hf : c.fragment_shader_key with
      | mk e f g =>
        simp [hv, hf] at h1 h2 h3
        simp [hv, hf, h1, h2, h3]

/-- C8 witness: with one attribute and no geometry shader, the derived
key has 13 attribute slots with zeros past the first, zero geometry
fields, and swapping the (distinct) vertex/fragment keys changes it. -/
theorem c8_key_derivation_witness :
    keyInputEx.vertex_attributes.length ≤ MAX_VERTEX_ATTRIBUTES ∧
    (getProgramCacheKey keyInputEx).va_key.vertex_attributes.length =
      MAX_VERTEX_ATTRIBUTES ∧
    (getProgramCacheKey keyInputEx).va_key.vertex_attributes.drop 1 =
      List.replicate 12 0 ∧
    (getProgramCacheKey keyInputEx).gs_length = 0 ∧
    getProgramCacheKey (swapVsFs keyInputEx) ≠ getProgramCacheKey keyInputEx := by
  have h := c8_key_derivation keyInputEx (by decide)
  exact ⟨by decide, h.1.1, h.1.2, (h.2.1 rfl).2.2, h.2.2 (by decide)⟩

/-- C9: when `AddToPipelineCache`'s seek/write of the compressed blob
fails (after successful binary retrieval and compression), no blob
lands on disk, yet the item is still marked disk-backed with the format,
offset and both sizes recorded, `data_end` is still advanced by the
compressed length, and the store is marked dirty — so a later
`ClosePipelineCache` emits an index entry pointing at the never-written
blob. -/
theorem c9_add_marks_item_despite_write_failure (s : GLDeviceState)
    (it : ProgramCacheItem) (o : AddOracle) (key : ProgramCacheKey) (version : Nat)
    (hb : o.binaryLength ≠ 0) (hr : o.retrievedLength ≠ 0)
    (c : Nat) (hcomp : o.compressResult = some c)
    (hwfail : o.seekWriteOk = false)
    (hr32 : o.retrievedLength < 2 ^ 32) (hc32 : c < 2 ^ 32)
    (hde : s.disk_cache_data_end + c < 2 ^ 32)
    (hfile : s.disk_cache_file = true) :
    (addToPipelineCache s it o).2.2 = none ∧
    (addToPipelineCache s it o).1.file_format = o.format ∧
    (addToPipelineCache s it o).1.file_offset = s.disk_cache_data_end ∧
    (addToPipelineCache s it o).1.file_uncompressed_size = o.retrievedLength ∧
    (addToPipelineCache s it o).1.file_compressed_size = c ∧
    (addToPipelineCache s it o).2.1.disk_cache_data_end =
      s.disk_cache_data_end + c ∧
    (addToPipelineCache s it o).2.1.disk_cache_changed = true ∧
    CloseWrite.indexEntry key o.format s.disk_cache_data_end o.retrievedLength c ∈
      (closePipelineCache
        { (addToPipelineCache s it o).2.1 with
            program_cache :=
              insertEntry (addToPipelineCache s it o).2.1.program_cache key
                (addToPipelineCache s it o).1 }
        version true true).2 := by
  have hmodr : o.retrievedLength % 2 ^ 32 = o.retrievedLength := Nat.mod_eq_of_lt hr32
  have hmodc : c % 2 ^ 32 = c := Nat.mod_eq_of_lt hc32
  have hmodd : (s.disk_cache_data_end + c) % 2 ^ 32 = s.disk_cache_data_end + c :=
    Nat.mod_eq_of_lt hde
  simp only [addToPipelineCache, hb, hr, hcomp, hwfail, if_false, if_neg hb,
    if_neg hr, Bool.false_eq_true, hmodr, hmodc, hmodd]
  refine ⟨trivial, trivial, trivial, trivial, trivial, trivial, trivial, ?_⟩
  simp only [closePipelineCache, hfile, Bool.not_true, Bool.false_eq_true,
    if_false, closeIndexWrites, insertEntry]
  simp [List.filter, hr, closeIndexWrites]

/-- C9 witness: on `sDisk` (data_end 14) with a 6-byte binary
compressing to 5 bytes and a failing blob write, the item is
nevertheless marked disk-backed at offset 14 and the subsequent close
writes an index entry for it. -/
theorem c9_add_marks_item_despite_write_failure_witness :
    (addToPipelineCache sDisk
        { program_id := 7, reference_count := 1, file_format := 0,
          file_offset := 0, file_uncompressed_size := 0, file_compressed_size := 0 }
        { binaryLength := 6, retrievedLength := 6, format := 2,
          compressResult := some 5, seekWriteOk := false }).2.2 = none ∧
    (addToPipelineCache sDisk
        { program_id := 7, reference_count := 1, file_format := 0,
          file_offset := 0, file_uncompressed_size := 0, file_compressed_size := 0 }
        { binaryLength := 6, retrievedLength := 6, format := 2,
          compressResult := some 5, seekWriteOk := false }).2.1.disk_cache_data_end = 19 ∧
    CloseWrite.indexEntry key0 2 14 6 5 ∈
      (closePipelineCache
        { (addToPipelineCache sDisk
            { program_id := 7, reference_count := 1, file_format := 0,
              file_offset := 0, file_uncompressed_size := 0, file_compressed_size := 0 }
            { binaryLength := 6, retrievedLength := 6, format := 2,
              compressResult := some 5, seekWriteOk := false }).2.1 with
            program_cache :=
              insertEntry (addToPipelineCache sDisk
                { program_id := 7, reference_count := 1, file_format := 0,
                  file_offset := 0, file_uncompressed_size := 0, file_compressed_size := 0 }
                { binaryLength := 6, retrievedLength := 6, format := 2,
                  compressResult := some 5, seekWriteOk := false }).2.1.program_cache key0
                (addToPipelineCache sDisk
                  { program_id := 7, reference_count := 1, file_format := 0,
                    file_offset := 0, file_uncompressed_size := 0, file_compressed_size := 0 }
                  { binaryLength := 6, retrievedLength := 6, format := 2,
                    compressResult := some 5, seekWriteOk := false }).1 }
        1 true true).2 := by
  have h := c9_add_marks_item_despite_write_failure sDisk
    { program_id := 7, reference_count := 1, file_format := 0,
      file_offset := 0, file_uncompressed_size := 0, file_compressed_size := 0 }
    { binaryLength := 6, retrievedLength := 6, format := 2,
      compressResult := some 5, seekWriteOk := false }
    key0 1 (by decide) (by decide) 5 rfl rfl (by decide) (by decide)
    (by decide) rfl
  exact ⟨h.1, h.2.2.2.2.2.1, h.2.2.2.2.2.2.2⟩

/-- C4: releasing a live entry decrements its reference count; at zero
the live handle is deleted — clearing the current-program binding first
when this program is the one bound — and the entry is then removed from
the map iff its disk-location size fields are zero, otherwise kept with
handle 0 and the disk location intact.  The size-field coherence
hypothesis (`file_uncompressed_size = 0 → file_compressed_size = 0`)
holds for every entry that can become live: fresh compiles have both
fields zero until `AddToPipelineCache` sets both. -/
theorem c4_unref_program (s : GLDeviceState) (key : ProgramCacheKey)
    (it : ProgramCacheItem)
    (hfind : findEntry s.program_cache key = some it)
    (hlive : it.program_id ≠ 0) (hrc : 1 ≤ it.reference_count)
    (hsz : it.file_uncompressed_size = 0 → it.file_compressed_size = 0) :
    (1 < it.reference_count →
      (unrefProgram s key).program_cache =
        updateEntry s.program_cache key
          ({ it with reference_count := it.reference_count - 1 }) ∧
      (unrefProgram s key).last_program = s.last_program) ∧
    (it.reference_count = 1 →
      (unrefProgram s key).last_program =
        (if s.last_program = it.program_id then 0 else s.last_program) ∧
      ((it.file_uncompressed_size = 0 ∧ it.file_compressed_size = 0) →
        findEntry (unrefProgram s key).program_cache key = none) ∧
      (¬(it.file_uncompressed_size = 0 ∧ it.file_compressed_size = 0) →
        findEntry (unrefProgram s key).program_cache key =
          some { it with program_id := 0, reference_count := 0 })) := by
  constructor
  · intro hgt
    have hdec : it.reference_count - 1 > 0 := by omega
    constructor <;> simp [unrefProgram, hfind, hdec]
  · intro hone
    have hdec : ¬(it.reference_count - 1 > 0) := by omega
    refine ⟨?_, ?_, ?_⟩
    · by_cases hu : it.file_uncompressed_size = 0 <;>
        simp [unrefProgram, hfind, hdec, hu]
    · rintro ⟨hu, -⟩
      simp [unrefProgram, hfind, hdec, hu, findEntry_erase_self]
    · intro hboth
      have hu : ¬(it.file_uncompressed_size = 0) := by
        intro hu0
        exact hboth ⟨hu0, hsz hu0⟩
      have hsome : (findEntry s.program_cache key).isSome := by
        simp [hfind]
      simp [unrefProgram, hfind, hdec, hu, findEntry_update_self _ _ _ hsome]

/-- C4 witness: releasing the single reference to the bound, disk-backed
program 9 clears the current-program binding and keeps the entry with
handle 0 and its disk location intact. -/
theorem c4_unref_program_witness :
    findEntry sLive.program_cache key0 = some itemLive ∧
    (unrefProgram sLive key0).last_program = 0 ∧
    findEntry (unrefProgram sLive key0).program_cache key0 =
      some { itemLive with program_id := 0, reference_count := 0 } := by
  have h := c4_unref_program sLive key0 itemLive (by decide) (by decide)
    (by decide) (by decide)
  have h2 := h.2 (by decide)
  refine ⟨by decide, ?_, h2.2.2 (by decide)⟩
  have hb := h2.1
  simpa [sLive, itemLive] using hb

/-- C1: resolving a key whose entry has live handle 0 and a nonzero
disk-location size attempts disk-backed reconstruction (the blob read at
the recorded offset/size is issued).  On success the handle is stored,
the reference count becomes 1 and the handle is returned.  On failure
the entry is removed from the map, the entire disk cache is invalidated
(`DiscardPipelineCache`: the file is truncated, `data_end` reset, the
key no longer present), and resolution falls through to a fresh
compile+link on the invalidated state. -/
theorem c1_resolve_disk_backed (s : GLDeviceState) (key : ProgramCacheKey)
    (it : ProgramCacheItem) (o : ResolveOracle)
    (hfind : findEntry s.program_cache key = some it)
    (hid : it.program_id = 0) (husz : 0 < it.file_uncompressed_size)
    (hrc : it.reference_count = 0) :
    (createProgramFromPipelineCache it o.reconstruct).readRequest =
      some (it.file_offset, it.file_compressed_size) ∧
    ((createProgramFromPipelineCache it o.reconstruct).result ≠ 0 →
      (lookupProgramCache s key o).1 =
        (createProgramFromPipelineCache it o.reconstruct).result ∧
      findEntry (lookupProgramCache s key o).2.program_cache key =
        some ({ it with
                  program_id := (createProgramFromPipelineCache it o.reconstruct).result,
                  reference_count := 1 })) ∧
    ((createProgramFromPipelineCache it o.reconstruct).result = 0 →
      lookupProgramCache s key o =
        freshCompile (diskFailState s key o.discardReopenOk) key o ∧
      findEntry (diskFailState s key o.discardReopenOk).program_cache key = none ∧
      (diskFailState s key o.discardReopenOk).disk_file_size = 0 ∧
      (diskFailState s key o.discardReopenOk).disk_cache_data_end = 0) := by
  have hguard : it.program_id = 0 ∧ 0 < it.file_uncompressed_size := ⟨hid, husz⟩
  refine ⟨?_, ?_, ?_⟩
  · unfold createProgramFromPipelineCache
    split
    · rfl
    · split
      · rfl
      · split
        · rfl
        · split <;> rfl
  · intro hne
    have hsome : (findEntry s.program_cache key).isSome := by simp [hfind]
    constructor
    · simp [lookupProgramCache, hfind, hguard, hne]
    · have hred : (lookupProgramCache s key o).2.program_cache =
          updateEntry s.program_cache key
            ({ it with
                 program_id := (createProgramFromPipelineCache it o.reconstruct).result,
                 reference_count := it.reference_count + 1 }) := by
        simp [lookupProgramCache, hfind, hguard, hne]
      rw [hred, hrc]
      exact findEntry_update_self _ _ _ hsome
  · intro hz
    refine ⟨?_, ?_, ?_, ?_⟩
    · simp [lookupProgramCache, hfind, hguard, hz, diskFailState]
    · unfold diskFailState discardPipelineCache
      have herase : findEntry (eraseEntry s.program_cache key) key = none :=
        findEntry_erase_self _ _
      cases o.discardReopenOk <;>
        simpa using findEntry_discardEntries_none _ _ herase
    · unfold diskFailState discardPipelineCache
      cases o.discardReopenOk <;> simp
    · unfold diskFailState discardPipelineCache
      cases o.discardReopenOk <;> simp

/-- C1 witness: on `sDisk` (entry under `key0` with handle 0, 5
uncompressed bytes recorded) a successful reconstruction returns
program 9 and stores it with reference count 1; with a failing blob
read, resolution discards the disk cache, removes the entry, and falls
through to the fresh compile, returning program 7. -/
theorem c1_resolve_disk_backed_witness :
    (findEntry sDisk.program_cache key0 = some itemDisk ∧
     itemDisk.program_id = 0 ∧ 0 < itemDisk.file_uncompressed_size ∧
     itemDisk.reference_count = 0) ∧
    (lookupProgramCache sDisk key0 oracleOk).1 = 9 ∧
    findEntry (lookupProgramCache sDisk key0 oracleOk).2.program_cache key0 =
      some ({ itemDisk with program_id := 9, reference_count := 1 }) ∧
    (lookupProgramCache sDisk key0 oracleReadFail).1 = 7 := by
  have h1 := c1_resolve_disk_backed sDisk key0 itemDisk oracleOk
    (by decide) (by decide) (by decide) (by decide)
  have h2 := c1_resolve_disk_backed sDisk key0 itemDisk oracleReadFail
    (by decide) (by decide) (by decide) (by decide)
  have hne : (createProgramFromPipelineCache itemDisk oracleOk.reconstruct).result ≠ 0 := by
    decide
  have hz : (createProgramFromPipelineCache itemDisk oracleReadFail.reconstruct).result = 0 := by
    decide
  have hsucc := h1.2.1 hne
  have hfail := (h2.2.2 hz).1
  refine ⟨⟨by decide, by decide, by decide, by decide⟩, ?_, ?_, ?_⟩
  · simpa using hsucc.1
  · simpa using hsucc.2
  · rw [hfail]
    decide

theorem entryReadsFor_length (f : CacheFile) (n : Nat) :
    (entryReadsFor f n).length = n := by
  simp [entryReadsFor, List.length_take, List.length_replicate]
  omega

theorem readEntriesLoop_none_of_findSome (size : Nat) :
    ∀ (reads : List (Option IndexEntry)) (cache : Cache),
      (∃ e, some e ∈ reads ∧ (findEntry cache e.key).isSome) →
      readEntriesLoop size cache reads = none := by
  intro reads
  induction reads with
  | nil =>
    rintro cache ⟨e, he, -⟩
    simp at he
  | cons oe rest ih =>
    rintro cache ⟨e, he, hfind⟩
    cases oe with
    | none => rfl
    | some e0 =>
      unfold readEntriesLoop
      by_cases h1 : size ≤ e0.offset + e0.compressed_size
      · simp [h1]
      · cases hfe : findEntry cache e0.key with
        | some v => simp [h1, hfe]
        | none =>
          simp only [h1, if_false, hfe, Option.isSome_none, Bool.false_eq_true,
            if_neg, if_false]
          rcases List.mem_cons.mp he with heq | hrest
          · obtain rfl : e = e0 := by injection heq
            rw [hfe] at hfind
            simp at hfind
          · exact ih _ ⟨e, hrest, findEntry_insert_isSome _ _ _ _ hfind⟩

theorem readEntriesLoop_none_of_oversize (size : Nat) :
    ∀ (reads : List (Option IndexEntry)) (cache : Cache),
      (∃ e, some e ∈ reads ∧ size < e.offset + e.compressed_size) →
      readEntriesLoop size cache reads = none := by
  intro reads
  induction reads with
  | nil =>
    rintro cache ⟨e, he, -⟩
    simp at he
  | cons oe rest ih =>
    rintro cache ⟨e, he, hover⟩
    cases oe with
    | none => rfl
    | some e0 =>
      unfold readEntriesLoop
      by_cases h1 : size ≤ e0.offset + e0.compressed_size
      · simp [h1]
      · cases hfe : findEntry cache e0.key with
        | some v => simp [h1, hfe]
        | none =>
          simp only [h1, if_false, hfe, Option.isSome_none, Bool.false_eq_true,
            if_neg, if_false]
          rcases List.mem_cons.mp he with heq | hrest
          · obtain rfl : e = e0 := by injection heq
            omega
          · exact ih _ ⟨e, hrest, hover⟩

theorem readEntriesLoop_none_of_dup (size : Nat) :
    ∀ (reads : List (Option IndexEntry)) (cache : Cache),
      (∃ i j e1 e2, i < j ∧ reads.get? i = some (some e1) ∧
        reads.get? j = some (some e2) ∧ e1.key = e2.key) →
      readEntriesLoop size cache reads = none := by
  intro reads
  induction reads with
  | nil =>
    rintro cache ⟨i, j, e1, e2, -, hi, -, -⟩
    simp at hi
  | cons oe rest ih =>
    rintro cache ⟨i, j, e1, e2, hij, hi, hj, hkey⟩
    cases oe with
    | none => rfl
    | some e0 =>
      unfold readEntriesLoop
      by_cases h1 : size ≤ e0.offset + e0.compressed_size
      · simp [h1]
      · cases hfe : findEntry cache e0.key with
        | some v => simp [h1, hfe]
        | none =>
          simp only [h1, if_false, hfe, Option.isSome_none, Bool.false_eq_true,
            if_neg, if_false]
          cases i with
          | zero =>
            obtain rfl : e1 = e0 := by
              simp only [List.get?_cons_zero, Option.some.injEq] at hi
              exact hi.symm
            obtain ⟨j2, rfl⟩ : ∃ j2, j = j2 + 1 := ⟨j - 1, by omega⟩
            rw [List.get?_cons_succ] at hj
            apply readEntriesLoop_none_of_findSome
            refine ⟨e2, List.get?_mem hj, ?_⟩
            simp [insertEntry, findEntry, ← hkey]
          | succ i2 =>
            obtain ⟨j2, rfl⟩ : ∃ j2, j = j2 + 1 := ⟨j - 1, by omega⟩
            rw [List.get?_cons_succ] at hi hj
            exact ih _ ⟨i2, j2, e1, e2, by omega, hi, hj, hkey⟩

/-- C3: once the footer passes the size/version/driver-identity checks,
open reads exactly `num_programs` fixed-size index entries, and if any
entry's blob range reaches past the file size, or any entry's key
duplicates one already read, the whole cache is rejected: the resulting
state is the `DiscardPipelineCache` of the pre-open state — every entry
read from the file is gone (only pre-existing live entries survive,
stripped of disk metadata), the file is truncated to empty and
`data_end` reset — not just the offending entry dropped. -/
theorem c3_open_rejects_whole_cache (s : GLDeviceState) (f : CacheFile)
    (expected ft : Footer) (reopenOk : Bool)
    (hsz : ¬(f.size < FOOTER_SIZE ∨ 4294967295 ≤ f.size))
    (hf : f.footerRead = some ft)
    (hver : ft.version = expected.version)
    (hvend : ft.driver_vendor = expected.driver_vendor)
    (hrend : ft.driver_renderer = expected.driver_renderer)
    (hdrv : ft.driver_version = expected.driver_version)
    (hseek : f.indexSeekOk = true) :
    (entryReadsFor f ft.num_programs).length = ft.num_programs ∧
    ((∃ e, some e ∈ entryReadsFor f ft.num_programs ∧
        f.size < e.offset + e.compressed_size) →
      (readPipelineCache s (.opened f) expected reopenOk).1.program_cache =
        discardEntries s.program_cache ∧
      (readPipelineCache s (.opened f) expected reopenOk).1.disk_file_size = 0 ∧
      (readPipelineCache s (.opened f) expected reopenOk).1.disk_cache_data_end = 0) ∧
    ((∃ i j e1 e2, i < j ∧
        (entryReadsFor f ft.num_programs).get? i = some (some e1) ∧
        (entryReadsFor f ft.num_programs).get? j = some (some e2) ∧
        e1.key = e2.key) →
      (readPipelineCache s (.opened f) expected reopenOk).1.program_cache =
        discardEntries s.program_cache ∧
      (readPipelineCache s (.opened f) expected reopenOk).1.disk_file_size = 0 ∧
      (readPipelineCache s (.opened f) expected reopenOk).1.disk_cache_data_end = 0) := by
  have hmatch : ¬(ft.version ≠ expected.version ∨
      ft.driver_vendor ≠ expected.driver_vendor ∨
      ft.driver_renderer ≠ expected.driver_renderer ∨
      ft.driver_version ≠ expected.driver_version) := by
    simp [hver, hvend, hrend, hdrv]
  have hred : readEntriesLoop f.size s.program_cache
        (entryReadsFor f ft.num_programs) = none →
      (readPipelineCache s (.opened f) expected reopenOk).1.program_cache =
        discardEntries s.program_cache ∧
      (readPipelineCache s (.opened f) expected reopenOk).1.disk_file_size = 0 ∧
      (readPipelineCache s (.opened f) expected reopenOk).1.disk_cache_data_end = 0 := by
    intro hloop
    simp only [readPipelineCache, hsz, if_false, hf, hmatch, hseek,
      Bool.not_true, Bool.false_eq_true, if_neg, hloop]
    cases reopenOk <;> simp [discardPipelineCache]
  refine ⟨entryReadsFor_length f ft.num_programs, ?_, ?_⟩
  · intro hover
    exact hred (readEntriesLoop_none_of_oversize f.size _ _ hover)
  · intro hdup
    exact hred (readEntriesLoop_none_of_dup f.size _ _ hdup)

/-- C3 witness: opening `fileOversize` on the empty initial state reads
its 2 index entries, hits the oversized second blob range, and ends with
an empty program cache and a truncated file. -/
theorem c3_open_rejects_whole_cache_witness :
    (entryReadsFor fileOversize footerTwo.num_programs).length = 2 ∧
    (readPipelineCache initState (.opened fileOversize) footerTwo true).1.program_cache =
      [] ∧
    (readPipelineCache initState (.opened fileOversize) footerTwo true).1.disk_file_size =
      0 := by
  have h := c3_open_rejects_whole_cache initState fileOversize footerTwo footerTwo
    true (by decide) rfl rfl rfl rfl rfl rfl
  have hover : ∃ e, some e ∈ entryReadsFor fileOversize footerTwo.num_programs ∧
      fileOversize.size < e.offset + e.compressed_size := by
    refine ⟨{ key := { key0 with vs_hash_low := 1 }, format := 1, offset := 600,
              uncompressed_size := 8, compressed_size := 200 }, ?_, by decide⟩
    decide
  have h2 := h.2.1 hover
  exact ⟨h.1, by simpa [initState, discardEntries] using h2.1, h2.2.1⟩

theorem closePipelineCache_state (s : GLDeviceState) (v : Nat) (a b : Bool) :
    (closePipelineCache s v a b).1 = { s with disk_cache_file := false } := by
  unfold closePipelineCache
  split
  · rfl
  · split
    · rfl
    · split
      · rfl
      · rfl

theorem unrefProgram_changed (s : GLDeviceState) (k : ProgramCacheKey) :
    (unrefProgram s k).disk_cache_changed = s.disk_cache_changed := by
  unfold unrefProgram
  (repeat' split) <;> rfl

theorem discardPipelineCache_changed (s : GLDeviceState) (ro : Bool) :
    (discardPipelineCache s ro).1.disk_cache_changed = s.disk_cache_changed := by
  cases ro <;> simp [discardPipelineCache]

theorem readPipelineCache_changed (s : GLDeviceState) (r : OpenResult)
    (e : Footer) (ro : Bool) :
    (readPipelineCache s r e ro).1.disk_cache_changed = s.disk_cache_changed := by
  cases r with
  | eacces => rfl
  | otherError => rfl
  | enoent => simpa using discardPipelineCache_changed _ ro
  | opened f =>
    simp only [readPipelineCache]
    split
    · simpa using discardPipelineCache_changed _ ro
    · split
      · simpa using discardPipelineCache_changed _ ro
      · split
        · simpa using discardPipelineCache_changed _ ro
        · split
          · simpa using discardPipelineCache_changed _ ro
          · split
            · simpa using discardPipelineCache_changed _ ro
            · rfl

/-- C5 counterexample: a session consisting of exactly one invalidate
(`DiscardPipelineCache`) and no add leaves the dirty flag unset —
`DiscardPipelineCache` never sets `m_pipeline_disk_cache_changed` — so
the following close writes nothing, contradicting the claim that an
invalidate forces the close-time write pass. -/
theorem c5_close_after_invalidate_counterexample :
    ¬ CloseWritesAfterInvalidateClaim := by
  intro h
  exact h [Op.invalidate true] 1
    ⟨Op.invalidate true, by simp, true, rfl⟩
    (by decide)

/-- C5 (amended): `ClosePipelineCache` performs no write when the store
is not dirty, and the dirty flag is set only by `AddToPipelineCache`
during a resolve — an invalidate alone never sets it.  When dirty, with
the file open and I/O succeeding, close seeks to `data_end` and writes
one index entry per item with nonzero disk-location size (live or not)
followed by a footer whose program count equals the number of entries
written; the file handle is closed on every exit path; and a second
close with no intervening mutation writes nothing. -/
theorem c5_close_behavior_amended :
    (∀ (s : GLDeviceState) (version : Nat) (seekOk writeOk : Bool),
      s.disk_cache_changed = false →
      (closePipelineCache s version seekOk writeOk).2 = []) ∧
    (∀ (s : GLDeviceState) (version : Nat),
      s.disk_cache_changed = true → s.disk_cache_file = true →
      (closePipelineCache s version true true).2 =
        closeIndexWrites s.program_cache ++
          [CloseWrite.footer version (closeIndexWrites s.program_cache).length]) ∧
    (∀ (s : GLDeviceState) (version : Nat) (seekOk writeOk : Bool),
      (closePipelineCache s version seekOk writeOk).1.disk_cache_file = false) ∧
    (∀ (s : GLDeviceState) (v1 : Nat) (a1 b1 : Bool) (v2 : Nat) (a2 b2 : Bool),
      (closePipelineCache (closePipelineCache s v1 a1 b1).1 v2 a2 b2).2 = []) ∧
    (∀ (s : GLDeviceState) (op : Op),
      (step s op).disk_cache_changed = true →
      s.disk_cache_changed = true ∨ ∃ key o, op = Op.resolve key o) := by
  refine ⟨?_, ?_, ?_, ?_, ?_⟩
  · intro s version seekOk writeOk h
    simp [closePipelineCache, h]
  · intro s version h1 h2
    simp [closePipelineCache, h1, h2]
  · intro s version seekOk writeOk
    rw [closePipelineCache_state]
  · intro s v1 a1 b1 v2 a2 b2
    rw [closePipelineCache_state]
    by_cases hc : s.disk_cache_changed = true <;> simp [closePipelineCache, hc]
  · intro s op h
    cases op with
    | resolve key o => exact Or.inr ⟨key, o, rfl⟩
    | release key =>
      left
      simp only [step] at h
      split at h
      · split at h
        · rwa [unrefProgram_changed] at h
        · exact h
      · exact h
    | openCache r expected ro =>
      left
      simpa [step, readPipelineCache_changed] using h
    | invalidate ro =>
      left
      simpa [step, discardPipelineCache_changed] using h
    | close version seekOk writeOk =>
      left
      simpa [step, closePipelineCache_state] using h

/-- C5 witness: on `sDisk` (clean store) close writes nothing; on
`sLive` (dirty store, open file, one disk-backed item) close writes that
item's index entry followed by a footer counting 1 program. -/
theorem c5_close_behavior_amended_witness :
    sDisk.disk_cache_changed = false ∧
    (closePipelineCache sDisk 1 true true).2 = [] ∧
    sLive.disk_cache_changed = true ∧ sLive.disk_cache_file = true ∧
    (closePipelineCache sLive 1 true true).2 =
      [CloseWrite.indexEntry key0 3 10 5 4, CloseWrite.footer 1 1] := by
  refine ⟨rfl, c5_close_behavior_amended.1 sDisk 1 true true rfl, rfl, rfl, ?_⟩
  have h := c5_close_behavior_amended.2.1 sLive 1 rfl rfl
  rw [h]
  decide

/-! Invariant-preservation lemmas for the C2 development. -/

theorem invCache_insert {m : Cache} {k : ProgramCacheKey} {v : ProgramCacheItem}
    (hm : InvCache m) (hv : ItemInv v) : InvCache (insertEntry m k v) := by
  intro p hp
  rcases List.mem_cons.mp hp with rfl | hmem
  · exact hv
  · exact hm p hmem

theorem invCache_erase {m : Cache} {k : ProgramCacheKey} (hm : InvCache m) :
    InvCache (eraseEntry m k) := by
  intro p hp
  exact hm p (List.mem_of_mem_filter hp)

theorem invCache_update {m : Cache} {k : ProgramCacheKey} {v : ProgramCacheItem}
    (hm : InvCache m) (hv : ItemInv v) : InvCache (updateEntry m k v) := by
  intro p hp
  rcases List.mem_map.mp hp with ⟨q, hq, rfl⟩
  by_cases hqk : q.1 = k
  · simpa [hqk] using hv
  · simpa [hqk] using hm q hq

theorem invCache_discard {m : Cache} (hm : InvCache m) :
    InvCache (discardEntries m) := by
  intro p hp
  rcases List.mem_map.mp hp with ⟨q, hq, rfl⟩
  have hqmem := List.mem_of_mem_filter hq
  have hqlive : ¬(q.2.program_id = 0) := by
    have := List.of_mem_filter hq
    simpa using this
  constructor
  · intro hne
    exact (hm q hqmem).1 (by simpa [clearFileFields] using hqlive)
  · intro hcon
    exact hqlive hcon.1

theorem itemInv_of_find {m : Cache} {k : ProgramCacheKey} {it : ProgramCacheItem}
    (hm : InvCache m) (hfind : findEntry m k = some it) : ItemInv it := by
  induction m with
  | nil => simp [findEntry] at hfind
  | cons p rest ih =>
    by_cases hpk : p.1 = k
    · simp only [findEntry, hpk, if_true, Option.some.injEq] at hfind
      subst hfind
      exact hm p (List.mem_cons_self p rest)
    · simp only [findEntry, hpk, if_false] at hfind
      exact ih (fun q hq => hm q (List.mem_cons_of_mem p hq)) hfind

theorem invCache_loop {size : Nat} :
    ∀ (reads : List (Option IndexEntry)) (m : Cache),
      InvCache m → (∀ oe ∈ reads, ∀ e, oe = some e → GoodEntry e) →
      ∀ cache2, readEntriesLoop size m reads = some cache2 → InvCache cache2 := by
  intro reads
  induction reads with
  | nil =>
    intro m hm _ cache2 hloop
    simp only [readEntriesLoop, Option.some.injEq] at hloop
    subst hloop
    exact hm
  | cons oe rest ih =>
    intro m hm hgood cache2 hloop
    cases oe with
    | none => simp [readEntriesLoop] at hloop
    | some e0 =>
      unfold readEntriesLoop at hloop
      by_cases h1 : size ≤ e0.offset + e0.compressed_size
      · simp [h1] at hloop
      · cases hfe : findEntry m e0.key with
        | some v => simp [h1, hfe] at hloop
        | none =>
          simp only [h1, if_false, hfe, Option.isSome_none, Bool.false_eq_true,
            if_neg, if_false] at hloop
          have hge : GoodEntry e0 :=
            hgood (some e0) (List.mem_cons_self _ _) e0 rfl
          have hitem : ItemInv
              { program_id := 0, reference_count := 0, file_format := e0.format,
                file_offset := e0.offset,
                file_uncompressed_size := e0.uncompressed_size,
                file_compressed_size := e0.compressed_size } := by
            constructor
            · intro hne
              simp at hne
            · rintro ⟨-, hu, hc⟩
              rcases hge with hg | hg
              · exact hg hu
              · exact hg hc
          exact ih _ (invCache_insert hm hitem)
            (fun oe hoe => hgood oe (List.mem_cons_of_mem _ hoe)) cache2 hloop

theorem entryReadsFor_good {f : CacheFile} {n : Nat}
    (h : ∀ oe ∈ f.entryReads, ∀ e, oe = some e → GoodEntry e) :
    ∀ oe ∈ entryReadsFor f n, ∀ e, oe = some e → GoodEntry e := by
  intro oe hoe e he
  rcases List.mem_append.mp hoe with htake | hrep
  · exact h oe (List.mem_of_mem_take htake) e he
  · rw [List.eq_of_mem_replicate hrep] at he
    simp at he

theorem addToPipelineCache_cache (s : GLDeviceState) (it : ProgramCacheItem)
    (o : AddOracle) :
    (addToPipelineCache s it o).2.1.program_cache = s.program_cache := by
  unfold addToPipelineCache
  (repeat' split) <;> rfl

theorem addToPipelineCache_item_id (s : GLDeviceState) (it : ProgramCacheItem)
    (o : AddOracle) :
    (addToPipelineCache s it o).1.program_id = it.program_id := by
  unfold addToPipelineCache
  (repeat' split) <;> rfl

theorem addToPipelineCache_item_rc (s : GLDeviceState) (it : ProgramCacheItem)
    (o : AddOracle) :
    (addToPipelineCache s it o).1.reference_count = it.reference_count := by
  unfold addToPipelineCache
  (repeat' split) <;> rfl

theorem cacheInv_freshCompile {s : GLDeviceState} (key : ProgramCacheKey)
    (o : ResolveOracle) (h : CacheInv s) :
    CacheInv (freshCompile s key o).2 := by
  unfold freshCompile
  by_cases hc : o.compileResult = 0
  · simpa [hc] using h
  · simp only [hc, if_false, if_neg hc]
    by_cases hf : s.disk_cache_file = true
    · simp only [hf, if_true]
      apply invCache_insert
      · simpa [CacheInv, addToPipelineCache_cache] using h
      · constructor
        · intro
          rw [addToPipelineCache_item_rc]
        · rw [addToPipelineCache_item_id]
          rintro ⟨h0, -, -⟩
          exact hc h0
    · simp only [Bool.not_eq_true] at hf
      simp only [hf, Bool.false_eq_true, if_false]
      apply invCache_insert h
      constructor
      · intro
        exact Nat.le_refl 1
      · rintro ⟨h0, -, -⟩
        exact hc h0

theorem cacheInv_discardState {s : GLDeviceState} (ro : Bool) (h : CacheInv s) :
    CacheInv (discardPipelineCache s ro).1 := by
  cases ro <;> simpa [discardPipelineCache, CacheInv] using invCache_discard h

theorem cacheInv_lookup {s : GLDeviceState} (key : ProgramCacheKey)
    (o : ResolveOracle) (h : CacheInv s) :
    CacheInv (lookupProgramCache s key o).2 := by
  unfold lookupProgramCache
  cases hfe : findEntry s.program_cache key with
  | none => exact cacheInv_freshCompile key o h
  | some it =>
    by_cases hguard : it.program_id = 0 ∧ 0 < it.file_uncompressed_size
    · simp only [hguard, if_true]
      by_cases hz : (createProgramFromPipelineCache it o.reconstruct).result = 0
      · simp only [hz, if_true]
        apply cacheInv_freshCompile
        apply cacheInv_discardState
        exact invCache_erase h
      · simp only [hz, if_false, if_neg hz]
        apply invCache_update h
        constructor
        · intro
          exact Nat.le_add_left 1 it.reference_count
        · rintro ⟨h0, -, -⟩
          exact hz h0
    · simp only [hguard, if_false, if_neg hguard]
      by_cases hid : it.program_id ≠ 0
      · rw [if_pos hid]
        apply invCache_update h
        have hinv := itemInv_of_find h hfe
        constructor
        · intro
          exact Nat.le_add_left 1 it.reference_count
        · rintro ⟨h0, -, -⟩
          exact hid h0
      · rw [if_neg hid]
        exact h

theorem cacheInv_unref {s : GLDeviceState} (key : ProgramCacheKey)
    (h : CacheInv s) : CacheInv (unrefProgram s key) := by
  unfold unrefProgram
  cases hfe : findEntry s.program_cache key with
  | none => exact h
  | some it =>
    have hinv := itemInv_of_find h hfe
    by_cases hdec : it.reference_count - 1 > 0
    · simp only [hdec, if_true]
      apply invCache_update h
      constructor
      · intro _
        exact hdec
      · intro hcon
        exact hinv.2 ⟨hcon.1, hcon.2.1, hcon.2.2⟩
    · simp only [hdec, if_false, if_neg hdec]
      by_cases hu : it.file_uncompressed_size = 0
      · simpa [hu] using invCache_erase h
      · simp only [hu, if_false, if_neg hu]
        apply invCache_update h
        constructor
        · intro hne
          simp at hne
        · rintro ⟨-, hu0, -⟩
          exact hu hu0

theorem cacheInv_read {s : GLDeviceState} (r : OpenResult) (e : Footer)
    (ro : Bool) (h : CacheInv s)
    (hgood : ∀ f, r = .opened f →
      ∀ oe ∈ f.entryReads, ∀ x, oe = some x → GoodEntry x) :
    CacheInv (readPipelineCache s r e ro).1 := by
  cases r with
  | eacces => exact h
  | otherError => exact h
  | enoent => exact cacheInv_discardState ro h
  | opened f =>
    have hg := hgood f rfl
    simp only [readPipelineCache]
    split
    · exact cacheInv_discardState ro h
    · split
      · exact cacheInv_discardState ro h
      · split
        · exact cacheInv_discardState ro h
        · split
          · exact cacheInv_discardState ro h
          · split
            · exact cacheInv_discardState ro h
            · rename_i cache2 hloop
              exact invCache_loop _ _ h (entryReadsFor_good hg) cache2 hloop

theorem cacheInv_step {s : GLDeviceState} (op : Op) (h : CacheInv s)
    (hgood : GoodOp op) : CacheInv (step s op) := by
  cases op with
  | resolve key o => exact cacheInv_lookup key o h
  | release key =>
    simp only [step]
    split
    · split
      · exact cacheInv_unref _ h
      · exact h
    · exact h
  | openCache r expected ro =>
    apply cacheInv_read r expected ro h
    intro f hf
    subst hf
    exact hgood
  | invalidate ro => exact cacheInv_discardState ro h
  | close version seekOk writeOk =>
    simpa [step, CacheInv, closePipelineCache_state] using h

/-- C2 counterexample: opening a crafted cache file whose (otherwise
valid) index contains an entry with live handle 0 and both disk-location
size fields 0 leaves that entry in the map — `ReadPipelineCache` accepts
it (the blob-range check `offset + compressed_size >= size` does not
reject zero sizes), so the claimed invariant fails after a single open
operation. -/
theorem c2_invariant_counterexample :
    ¬ CacheInv (run initState
        [Op.openCache (.opened fileZeroEntry) footerOne true]) := by
  decide

/-- C2 (amended): the invariant — every entry with a nonzero live handle
has reference count ≥ 1, and no entry has live handle 0 together with
both disk-location size fields 0 — holds after any sequence of
resolve/release/open/add/invalidate/close operations, provided every
cache file opened carries only index entries with a nonzero size field
(which is true of every file the store itself writes, since
`AddToPipelineCache` never records a zero uncompressed size and
`ClosePipelineCache` skips zero-size items). -/
theorem c2_invariant_wellformed_sessions (ops : List Op)
    (hgood : ∀ op ∈ ops, GoodOp op) : CacheInv (run initState ops) := by
  have aux : ∀ (l : List Op) (s : GLDeviceState), CacheInv s →
      (∀ op ∈ l, GoodOp op) → CacheInv (run s l) := by
    intro l
    induction l with
    | nil =>
      intro s h _
      exact h
    | cons op rest ih =>
      intro s h hg
      exact ih (step s op)
        (cacheInv_step op h (hg op (List.mem_cons_self _ _)))
        (fun op2 h2 => hg op2 (List.mem_cons_of_mem _ h2))
  exact aux ops initState (by intro p hp; simp [initState] at hp) hgood

/-- C2 witness: a session that resolves `key0` (fresh compile, program
7) and then releases it satisfies the goodness condition and ends in a
state satisfying the invariant. -/
theorem c2_invariant_wellformed_sessions_witness :
    (∀ op ∈ [Op.resolve key0 oracleOk, Op.release key0], GoodOp op) ∧
    CacheInv (run initState [Op.resolve key0 oracleOk, Op.release key0]) := by
  have hg : ∀ op ∈ [Op.resolve key0 oracleOk, Op.release key0], GoodOp op := by
    intro op hop
    rcases List.mem_cons.mp hop with rfl | hop2
    · trivial
    · rcases List.mem_cons.mp hop2 with rfl | hop3
      · trivial
      · simp at hop3
  exact ⟨hg, c2_invariant_wellformed_sessions _ hg⟩

end OGLPipeline
